import Mathlib

/-!
Verification of the chat-to-trade extraction and analytics pipeline of the
trading-journal backend (src/app). The definitions below are a shallow
embedding of the Python source: pure computations become Lean functions,
DB rows become structures, the store becomes explicit state, and each
external outcome (DB write success, model-call result) is an oracle input.
Numbers are embedded as rationals; dates as integers (calendar ordinals);
DB-assigned timestamps as naturals supplied by the oracle.
-/

/-! ## Data model (src/app/apis/models.py and the three DB tables) -/

/-- A row of the chats table: id, owning user, title. -/
structure ChatRow where
  id : String
  user_id : String
  title : String
  deriving Repr, DecidableEq

/-- A row of the messages table (insert shape of chat_router/ai_router plus
the DB-assigned created_at used for ordering). -/
structure MessageRow where
  chat_id : String
  user_id : String
  content : String
  role : String
  created_at : Nat
  deriving Repr, DecidableEq

/-- A row of the trades table (insert shape of trade_router/ai_router). -/
structure TradeRow where
  user_id : String
  ticker : String
  entry_date : Int
  entry_price : Rat
  quantity : Rat
  exit_date : Option Int
  exit_price : Option Rat
  notes : Option String
  profit_loss : Option Rat
  deriving Repr, DecidableEq

/-- The storage collaborator state: the three tables the core touches. -/
structure Store where
  chats : List ChatRow
  messages : List MessageRow
  trades : List TradeRow
  deriving Repr, DecidableEq

/-- Embeds pydantic TradeCreate (src/app/apis/models.py lines 95-104):
ticker, entry_date, entry_price, quantity are required; exit_date,
exit_price, notes are optional with default None. -/
structure TradeCreate where
  ticker : String
  entry_date : Int
  entry_price : Rat
  quantity : Rat
  exit_date : Option Int := none
  exit_price : Option Rat := none
  notes : Option String := none
  deriving Repr, DecidableEq

/-- Embeds pydantic TradeUpdate together with dict(exclude_unset=True):
an outer none means the field was not present in the patch; for the
nullable fields exit_date, exit_price, notes an inner none means the field
was explicitly sent as null. Patches that send null for the non-nullable
fields (ticker, entry_date, entry_price, quantity) would raise a TypeError
in the source arithmetic and are outside this embedding. -/
structure TradeUpdate where
  ticker : Option String := none
  entry_date : Option Int := none
  entry_price : Option Rat := none
  quantity : Option Rat := none
  exit_date : Option (Option Int) := none
  exit_price : Option (Option Rat) := none
  notes : Option (Option String) := none
  deriving Repr, DecidableEq

/-- Role and content projection of a message, as built for the model
context (chat_history_for_ai in ai_chat, and the limit-4 select of
generate_title). -/
structure MsgCtx where
  role : String
  content : String
  deriving Repr, DecidableEq

/-- The 7-column projection selected by the trade-history read in
get_chat_and_trades_sync. -/
structure TradeCtx where
  ticker : String
  entry_price : Rat
  exit_price : Option Rat
  quantity : Rat
  entry_date : Int
  profit_loss : Option Rat
  notes : Option String
  deriving Repr, DecidableEq

/-- Embeds the str.upper() normalization applied to tickers. Restated
over the character list (String.map restricted to this use) so that the
kernel can evaluate it on concrete tickers. -/
def pyUpper (s : String) : String := String.mk (s.data.map Char.toUpper)

/-! ## TradeMath (src/app/apis/trade_router.py lines 13-17) -/

/-- Embeds trade_router.calculate_profit_loss: the guard is an
`is not None` test, so an exit price of exactly 0 yields a P&L. -/
def calculate_profit_loss (entry_price : Rat) (exit_price : Option Rat) (quantity : Rat) :
    Option Rat :=
  match exit_price with
  | some ep => some ((ep - entry_price) * quantity)
  | none => none

/-- Embeds the inline P&L computation of ai_chat (ai_router.py lines
131-141): the guard there is Python truthiness on an Optional float
(`if extracted_trade.exit_price:`), which is false both for None and for
0.0. -/
def ai_chat_profit_loss (t : TradeCreate) : Option Rat :=
  match t.exit_price with
  | some ep => if ep ≠ 0 then some ((ep - t.entry_price) * t.quantity) else none
  | none => none

/-! ## Sorting helper (embeds the order-by performed by the store) -/

/-- Insert into a list sorted by the given total test. -/
def insertSorted {α : Type} (le : α → α → Bool) (a : α) : List α → List α
  | [] => [a]
  | b :: bs => if le a b then a :: b :: bs else b :: insertSorted le a bs

/-- Insertion sort; embeds the order-by clause of the store reads. -/
def sortBy {α : Type} (le : α → α → Bool) : List α → List α
  | [] => []
  | a :: as => insertSorted le a (sortBy le as)

theorem mem_insertSorted {α : Type} {le : α → α → Bool} {a x : α} {l : List α} :
    x ∈ insertSorted le a l ↔ x = a ∨ x ∈ l := by
  induction l with
  | nil => simp [insertSorted]
  | cons b bs ih =>
    by_cases h : le a b
    · simp [insertSorted, h]
    · simp [insertSorted, h, ih]
      tauto

theorem mem_sortBy {α : Type} {le : α → α → Bool} {x : α} {l : List α} :
    x ∈ sortBy le l ↔ x ∈ l := by
  induction l with
  | nil => simp [sortBy]
  | cons a as ih => simp [sortBy, mem_insertSorted, ih]

/-! ## Storage queries of the core -/

/-- Embeds the ownership lookup used by ai_chat, generate_title, get_chat,
delete_chat, create_message: select on chats with .eq id and .eq user_id,
taking the single row. -/
def chat_lookup (s : Store) (chat_id user_id : String) : Option ChatRow :=
  (s.chats.filter (fun c => c.id == chat_id && c.user_id == user_id)).head?

/-- Embeds the message-history read of get_chat_and_trades_sync and of
get_chat: select * from messages .eq chat_id (no user filter), ordered by
created_at ascending. -/
def messages_query (s : Store) (chat_id : String) : List MessageRow :=
  sortBy (fun a b => a.created_at ≤ b.created_at)
    (s.messages.filter (fun m => m.chat_id == chat_id))

/-- Embeds the trade-history read of get_chat_and_trades_sync: select from
trades .eq user_id, ordered by entry_date descending, limit 20. -/
def trades_query (s : Store) (user_id : String) : List TradeRow :=
  (sortBy (fun a b => b.entry_date ≤ a.entry_date)
    (s.trades.filter (fun t => t.user_id == user_id))).take 20

/-- The 7-column projection of the trade-history select. -/
def projectTradeCtx (t : TradeRow) : TradeCtx :=
  ⟨t.ticker, t.entry_price, t.exit_price, t.quantity, t.entry_date, t.profit_loss, t.notes⟩

/-- Embeds get_chat_and_trades_sync (ai_router.py lines 18-35). -/
def get_chat_and_trades_sync (s : Store) (chat_id user_id : String) :
    List MessageRow × List TradeCtx :=
  (messages_query s chat_id, (trades_query s user_id).map projectTradeCtx)

/-! ## ExtractionAdapter (src/app/libs/ai_service.py lines 69-93) -/

/-- The parsed JSON object returned by the extraction model. A field is
none when it is absent from the object or null (pydantic validates both
identically); a non-parseable value for a required field likewise fails
validation and is subsumed by none. -/
structure RawTradeJson where
  ticker : Option String := none
  entry_date : Option Int := none
  entry_price : Option Rat := none
  quantity : Option Rat := none
  exit_date : Option Int := none
  exit_price : Option Rat := none
  notes : Option String := none
  deriving Repr, DecidableEq

/-- The possible outcomes of the extraction model call seen by the
adapter: the call raised, the content was the literal null, the content
was not parseable JSON, or it parsed to an object. -/
inductive ModelExtractionOutput
  | unreachable
  | nullLiteral
  | notJson
  | jsonObj (o : RawTradeJson)
  deriving Repr, DecidableEq

/-- Embeds the pydantic validation TradeCreate(**trade_data): the required
fields ticker, entry_date, entry_price, quantity must be present, else a
ValidationError is raised (returned here as none, matching the catch-all
of the adapter). No field is defaulted. -/
def validate_TradeCreate (o : RawTradeJson) : Option TradeCreate :=
  match o.ticker, o.entry_date, o.entry_price, o.quantity with
  | some tk, some d, some ep, some q =>
      some { ticker := tk, entry_date := d, entry_price := ep, quantity := q,
             exit_date := o.exit_date, exit_price := o.exit_price, notes := o.notes }
  | _, _, _, _ => none

/-- Embeds AIService.extract_trade_from_text: "null" content returns
None; the object must contain a ticker key; validation errors and any
exception are caught and return None. -/
def extract_trade_from_text (out : ModelExtractionOutput) : Option TradeCreate :=
  match out with
  | ModelExtractionOutput.unreachable => none
  | ModelExtractionOutput.nullLiteral => none
  | ModelExtractionOutput.notJson => none
  | ModelExtractionOutput.jsonObj o =>
      if o.ticker.isSome then validate_TradeCreate o else none

/-! ## ConversationAdapter (src/app/libs/ai_service.py lines 95-143) -/

/-- A turn of the Gemini history built by generate_chat_response. -/
structure GeminiTurn where
  role : String
  parts : List String
  deriving Repr, DecidableEq

/-- Embeds the role mapping inside generate_chat_response. -/
def gemini_role (role : String) : String :=
  if role == "assistant" then "model" else "user"

/-- Embeds the history window of generate_chat_response:
chat_history[-10:] mapped to Gemini turns. -/
def build_gemini_history (chat_history : List MsgCtx) : List GeminiTurn :=
  (chat_history.drop (chat_history.length - 10)).map
    (fun m => ⟨gemini_role m.role, [m.content]⟩)

/-- One line of the trade context. The source serializes the projected
trade rows with json.dumps; the exact rendering is irrelevant to every
claim, so it is embedded as a line rendering of the same seven fields. -/
def render_trade_line (t : TradeCtx) : String :=
  t.ticker ++ " entry_price=" ++ toString t.entry_price
    ++ " exit_price=" ++ (match t.exit_price with | some p => toString p | none => "null")
    ++ " quantity=" ++ toString t.quantity
    ++ " entry_date=" ++ toString t.entry_date
    ++ " profit_loss=" ++ (match t.profit_loss with | some p => toString p | none => "null")
    ++ " notes=" ++ (match t.notes with | some n => n | none => "null")

/-- Embeds the trade-context block of generate_chat_response. -/
def format_trade_context (trade_history : List TradeCtx) : String :=
  if trade_history.isEmpty then
    "\n\n(No trade history found for analysis.)\n"
  else
    "\n\n--- TRADE HISTORY FOR ANALYSIS (Last 20 Trades) ---\n"
      ++ String.intercalate "\n" (trade_history.map render_trade_line)
      ++ "\n-----------------------------------------------------\n"

/-- Embeds full_context_message of generate_chat_response. -/
def full_context_message (user_message : String) (trade_history : List TradeCtx) : String :=
  "\n[CONTEXT]: Use the trade data below to answer the user request. Focus on providing personalized analysis, review, or planning suggestions based on this history.\n\n"
    ++ format_trade_context trade_history
    ++ "\n\n[USER REQUEST]: " ++ user_message ++ "\n"

/-- The fixed fallback sentence of generate_chat_response (also the preset
value of ai_response_text in ai_chat). -/
def fallback_response : String :=
  "I apologize, but I\x27m having trouble processing your request right now. Please try again."

/-- Embeds AIService.generate_chat_response: builds the Gemini history and
the full context message, issues one model call (the oracle argument,
standing for start_chat + send_message_async), and on any error returns
the fixed fallback sentence instead of raising. -/
def generate_chat_response (chat_model : List GeminiTurn → String → Except Unit String)
    (user_message : String) (chat_history : List MsgCtx) (trade_history : List TradeCtx) :
    String :=
  let gemini_history := build_gemini_history chat_history
  match chat_model gemini_history (full_context_message user_message trade_history) with
  | Except.ok text => text
  | Except.error _ => fallback_response

/-! ## ChatOrchestrator (src/app/apis/ai_router.py lines 71-168) -/

/-- The failure statuses ai_chat surfaces: 404 and 500. -/
inductive ChatError
  | notFound (detail : String)
  | internal (detail : String)
  deriving Repr, DecidableEq

/-- The response body of /ai/chat. -/
structure AIMessageResponse where
  message : String
  trade_extracted : Option TradeCreate
  deriving Repr, DecidableEq

/-- Oracle for one ai_chat run: the outcome of each external operation.
read_sees_user_msg resolves the race between the concurrent user-message
insert and the context read; now stands for the DB-assigned timestamps. -/
structure ChatOracle where
  user_msg_insert_ok : Bool
  db_read_ok : Bool
  read_sees_user_msg : Bool
  extraction_output : ModelExtractionOutput
  chat_model : List GeminiTurn → String → Except Unit String
  ai_msg_insert_ok : Bool
  trade_insert_ok : Bool
  now : Nat

/-- The user MessageRow inserted by insert_user_message_sync. -/
def mk_user_msg (o : ChatOracle) (chat_id user_id message : String) : MessageRow :=
  ⟨chat_id, user_id, message, "user", o.now⟩

/-- The assistant MessageRow inserted by insert_ai_message_sync. -/
def mk_ai_msg (o : ChatOracle) (chat_id user_id content : String) : MessageRow :=
  ⟨chat_id, user_id, content, "assistant", o.now + 1⟩

/-- The store after the concurrent user-message insert (step 2 of
ai_chat): the row is present iff the insert succeeded. -/
def store_after_user_insert (o : ChatOracle) (s : Store) (chat_id user_id message : String) :
    Store :=
  if o.user_msg_insert_ok then
    { s with messages := s.messages ++ [mk_user_msg o chat_id user_id message] }
  else s

/-- The reply text computed in step 3 of ai_chat: the context read (which
may or may not observe the racing user-message insert) feeds
generate_chat_response; the adapter already degrades to the fallback, so
the surrounding try/except of ai_chat never fires in this embedding. -/
def ai_chat_reply (o : ChatOracle) (s : Store) (user_id chat_id message : String) : String :=
  let s_read := if o.read_sees_user_msg then store_after_user_insert o s chat_id user_id message
                else s
  let ctx := get_chat_and_trades_sync s_read chat_id user_id
  generate_chat_response o.chat_model message
    (ctx.fst.map (fun m => ⟨m.role, m.content⟩)) ctx.snd

/-- The TradeRow inserted by insert_trade_sync (ai_router.py lines 55-67):
ticker upper-cased, P&L passed in from the caller. -/
def insert_trade_row (user_id : String) (t : TradeCreate) (profit_loss : Option Rat) :
    TradeRow :=
  { user_id := user_id, ticker := pyUpper t.ticker, entry_date := t.entry_date,
    entry_price := t.entry_price, quantity := t.quantity, exit_date := t.exit_date,
    exit_price := t.exit_price, notes := t.notes, profit_loss := profit_loss }

/-- Detail string of the 404 raised by ai_chat. -/
def notFoundDetail : String := "Chat not found or user does not have permission"

/-- Constant prefix of the 500 detail raised when the step-2 gather fails. -/
def initialTaskFailedDetail : String := "A critical initial task failed (DB or AI Extraction)."

/-- Constant prefix of the 500 detail raised by the outer catch-all. -/
def criticalErrorDetail : String := "An unexpected critical error occurred"

/-- Embeds ai_chat (ai_router.py lines 71-168). Step 1 verifies chat
ownership and surfaces 404 on failure before any write. Step 2 launches
the user-message insert, the context read and the extraction concurrently;
a failure of either DB task surfaces a 500 (the extraction adapter never
raises). Step 3 computes the reply with fallback degradation. Step 4
launches the assistant-message insert and, when a trade was extracted, the
trade insert; both tasks run to completion even when one fails (gather
does not cancel the sibling thread task), and any task failure is caught
by the outer handler as a generic 500. Step 5 returns the reply text and
the extracted draft. The final store is returned in both outcomes. -/
def ai_chat (o : ChatOracle) (s : Store) (user_id chat_id message : String) :
    Except ChatError AIMessageResponse × Store :=
  match chat_lookup s chat_id user_id with
  | none => (Except.error (ChatError.notFound notFoundDetail), s)
  | some _chat =>
    let s1 := store_after_user_insert o s chat_id user_id message
    if o.user_msg_insert_ok && o.db_read_ok then
      let extracted_trade := extract_trade_from_text o.extraction_output
      let ai_response_text := ai_chat_reply o s user_id chat_id message
      let trade_rows : List TradeRow :=
        match extracted_trade with
        | some t =>
            if o.trade_insert_ok then [insert_trade_row user_id t (ai_chat_profit_loss t)]
            else []
        | none => []
      let msg_rows : List MessageRow :=
        if o.ai_msg_insert_ok then [mk_ai_msg o chat_id user_id ai_response_text] else []
      let s2 : Store :=
        { s1 with
          messages := s1.messages ++ msg_rows
          trades := s1.trades ++ trade_rows }
      if o.ai_msg_insert_ok && (extracted_trade.isNone || o.trade_insert_ok) then
        (Except.ok { message := ai_response_text, trade_extracted := extracted_trade }, s2)
      else
        (Except.error (ChatError.internal criticalErrorDetail), s2)
    else
      (Except.error (ChatError.internal initialTaskFailedDetail), s1)

/-! ## Trade CRUD (src/app/apis/trade_router.py) -/

/-- Embeds create_trade_sync (trade_router.py lines 19-40): P&L computed
by calculate_profit_loss, ticker upper-cased. -/
def create_trade_sync (trade_data : TradeCreate) (user_id : String) : TradeRow :=
  { user_id := user_id
    ticker := pyUpper trade_data.ticker
    entry_date := trade_data.entry_date
    entry_price := trade_data.entry_price
    quantity := trade_data.quantity
    exit_date := trade_data.exit_date
    exit_price := trade_data.exit_price
    notes := trade_data.notes
    profit_loss := calculate_profit_loss trade_data.entry_price trade_data.exit_price
      trade_data.quantity }

/-- Embeds update_trade_sync (trade_router.py lines 77-107) applied to the
existing row: profit_loss is recomputed from the patched-or-existing
values BEFORE the exit_date-clearing rule runs; when the patch sets
exit_date to null, exit_price is forced to null in the stored row but the
already-computed profit_loss is kept. -/
def update_trade_sync (existing : TradeRow) (patch : TradeUpdate) : TradeRow :=
  let entry_price := patch.entry_price.getD existing.entry_price
  let exit_price_for_pl :=
    match patch.exit_price with
    | some v => v
    | none => existing.exit_price
  let quantity := patch.quantity.getD existing.quantity
  let profit_loss := calculate_profit_loss entry_price exit_price_for_pl quantity
  let exit_cleared : Bool :=
    match patch.exit_date with
    | some none => true
    | _ => false
  { user_id := existing.user_id
    ticker := patch.ticker.getD existing.ticker
    entry_date := patch.entry_date.getD existing.entry_date
    entry_price := entry_price
    quantity := quantity
    exit_date :=
      match patch.exit_date with
      | some v => v
      | none => existing.exit_date
    exit_price := if exit_cleared then none else exit_price_for_pl
    notes :=
      match patch.notes with
      | some v => v
      | none => existing.notes
    profit_loss := profit_loss }

/-! ## AnalyticsEngine (src/app/apis/ai_router.py lines 199-240) -/

/-- Python round to the nearest integer (round-half-to-even). -/
def roundHalfEven (q : Rat) : Int :=
  let f := ⌊q⌋
  let frac := q - (f : Rat)
  if frac < 1/2 then f
  else if 1/2 < frac then f + 1
  else if f % 2 = 0 then f else f + 1

/-- round(x, 2) of the source, on rationals. -/
def round2 (q : Rat) : Rat := ((roundHalfEven (q * 100) : Int) : Rat) / 100

/-- t.get("profit_loss", 0) of the source. -/
def plValue (t : TradeRow) : Rat := t.profit_loss.getD 0

/-- closed_trades of get_analytics: the trades whose profit_loss is
present. -/
def closed_of (trades : List TradeRow) : List TradeRow :=
  trades.filter (fun t => t.profit_loss.isSome)

/-- winning_trades of get_analytics. -/
def win_bucket (trades : List TradeRow) : List TradeRow :=
  (closed_of trades).filter (fun t => decide (0 < plValue t))

/-- losing_trades of get_analytics. -/
def loss_bucket (trades : List TradeRow) : List TradeRow :=
  (closed_of trades).filter (fun t => decide (plValue t < 0))

/-- Python max(list, key=f): the first element attaining the maximum. -/
def pyMax (f : TradeRow → Rat) : List TradeRow → Option TradeRow
  | [] => none
  | t :: ts => some (ts.foldl (fun best x => if f best < f x then x else best) t)

/-- Python min(list, key=f): the first element attaining the minimum. -/
def pyMin (f : TradeRow → Rat) : List TradeRow → Option TradeRow
  | [] => none
  | t :: ts => some (ts.foldl (fun best x => if f x < f best then x else best) t)

/-- The response body of /ai/analytics. -/
structure AnalyticsResponse where
  total_trades : Nat
  total_profit_loss : Rat
  win_rate : Rat
  avg_profit : Rat
  avg_loss : Rat
  best_trade : Option TradeRow
  worst_trade : Option TradeRow
  deriving Repr, DecidableEq

/-- Embeds get_analytics (ai_router.py lines 199-240) applied to the
date-filtered trades of the caller: early zero response when no trades,
otherwise the aggregates with every monetary output passed through
round(.., 2). -/
def get_analytics (trades : List TradeRow) : AnalyticsResponse :=
  if trades.isEmpty then
    { total_trades := 0, total_profit_loss := 0, win_rate := 0, avg_profit := 0,
      avg_loss := 0, best_trade := none, worst_trade := none }
  else
    let closed_trades := closed_of trades
    let total_trades := closed_trades.length
    let total_profit_loss := (closed_trades.map plValue).sum
    let winning_trades := win_bucket trades
    let losing_trades := loss_bucket trades
    let win_rate : Rat :=
      if 0 < total_trades then ((winning_trades.length : Rat) / (total_trades : Rat)) * 100
      else 0
    let avg_profit : Rat :=
      if winning_trades.isEmpty then 0
      else (winning_trades.map plValue).sum / (winning_trades.length : Rat)
    let avg_loss : Rat :=
      if losing_trades.isEmpty then 0
      else (losing_trades.map plValue).sum / (losing_trades.length : Rat)
    { total_trades := total_trades
      total_profit_loss := round2 total_profit_loss
      win_rate := round2 win_rate
      avg_profit := round2 avg_profit
      avg_loss := round2 avg_loss
      best_trade := pyMax plValue closed_trades
      worst_trade := pyMin plValue closed_trades }

/-- Spec-side counter, from the words of the spec: count of trades with
profit_loss > 0. Used only to state the win-rate formula of the claim. -/
def spec_win_count (trades : List TradeRow) : Nat :=
  (trades.filter (fun t =>
    match t.profit_loss with
    | some p => decide (0 < p)
    | none => false)).length

/-- Spec-side counter, from the words of the spec: count of trades with
profit_loss present. -/
def spec_closed_count (trades : List TradeRow) : Nat :=
  (trades.filter (fun t => t.profit_loss.isSome)).length

/-! ## TitleGenerator (src/app/apis/ai_router.py lines 267-326) -/

/-- Modelled from the spec: the generate_title endpoint invokes
ai_service.generate_title_for_chat, but AIService in
src/app/libs/ai_service.py does not define that method (only its caller
is in src). Spec section 4.5: given the first up-to-4 messages of a chat
(role and content only) it requests a short title and returns the text,
or None on failure or empty result, never raising. The outcome of the
model request is the oracle argument. -/
def generate_title_for_chat (title_model : Option String) (_first_messages : List MsgCtx) :
    Option String :=
  title_model

/-- The failure statuses generate_title surfaces: 404, 400 and 500. -/
inductive TitleError
  | notFound (detail : String)
  | badRequest (detail : String)
  | internal (detail : String)
  deriving Repr, DecidableEq

/-- The limit-4 ascending role+content select of generate_title. -/
def first_messages_query (s : Store) (chat_id : String) : List MsgCtx :=
  ((messages_query s chat_id).take 4).map (fun m => ⟨m.role, m.content⟩)

/-- Embeds the generate_title endpoint (ai_router.py lines 267-326):
verify ownership (404), fetch the first 4 messages (400 when none), ask
the title generator, treat a falsy result (None or empty string) as a 500
without updating, else update the title of the chat row (the update is
filtered by chat id only). -/
def generate_title (title_model : Option String) (s : Store) (user_id chat_id : String) :
    Except TitleError ChatRow × Store :=
  match chat_lookup s chat_id user_id with
  | none => (Except.error (TitleError.notFound notFoundDetail), s)
  | some chat =>
    let msgs := first_messages_query s chat_id
    if msgs.isEmpty then
      (Except.error (TitleError.badRequest "No messages in chat to generate title from"), s)
    else
      match generate_title_for_chat title_model msgs with
      | none => (Except.error (TitleError.internal "AI failed to generate title"), s)
      | some new_title =>
        if new_title == "" then
          (Except.error (TitleError.internal "AI failed to generate title"), s)
        else
          (Except.ok { chat with title := new_title },
           { s with chats := s.chats.map (fun c =>
               if c.id == chat_id then { c with title := new_title } else c) })

/-! ## Concrete fixtures -/

/-- A chat owned by alice. -/
def chatA : ChatRow := ⟨"c1", "alice", "My chat"⟩

/-- Extraction model output with a ticker and an exit price of exactly 0
(a position closed worthless). -/
def raw1 : RawTradeJson :=
  { ticker := some "xyz", entry_date := some 20250101, entry_price := some 5,
    quantity := some 10, exit_date := some 20250102, exit_price := some 0 }

/-- Oracle for a fully successful ai_chat run that extracts raw1. -/
def oracle1 : ChatOracle :=
  { user_msg_insert_ok := true, db_read_ok := true, read_sees_user_msg := true,
    extraction_output := ModelExtractionOutput.jsonObj raw1,
    chat_model := fun _ _ => Except.ok "Logged.",
    ai_msg_insert_ok := true, trade_insert_ok := true, now := 1 }

/-- A store holding only the chat owned by alice. -/
def store1 : Store := ⟨[chatA], [], []⟩

/-- C1: the trade written by the chat orchestrator from a draft whose
exit price is exactly 0 has exit_price present but profit_loss absent —
the inline guard is Python truthiness, unlike calculate_profit_loss,
which at the same inputs yields (0 - 5) * 10 = -50. This evaluates the
code at the failing input of the claim. -/
theorem C1_zero_exit_price_bug :
    ((ai_chat oracle1 store1 "alice" "c1" "sold all xyz at 0").snd.trades.map
      (fun t => (t.ticker, t.exit_price, t.profit_loss))) = [("XYZ", some 0, none)]
    ∧ calculate_profit_loss 5 (some 0) 10 = some (-50) := by
  refine ⟨by decide, by norm_num [calculate_profit_loss]⟩

/-- A closed trade: entry 100, quantity 2, exit 110, stored P&L 20. -/
def existing4 : TradeRow :=
  { user_id := "alice", ticker := "XYZ", entry_date := 20250101, entry_price := 100,
    quantity := 2, exit_date := some 20250110, exit_price := some 110, notes := none,
    profit_loss := some 20 }

/-- A patch that clears exit_date (sends it explicitly as null). -/
def patch4 : TradeUpdate := { exit_date := some none }

/-- C4: updating existing4 with a patch that clears exit_date stores a row
with exit_date and exit_price absent but profit_loss still 20: the P&L is
computed from the pre-clearing exit price before the clearing rule runs,
so the derived field is not cleared with its source. -/
theorem C4_clear_exit_date_keeps_stale_pl :
    (update_trade_sync existing4 patch4).exit_date = none
    ∧ (update_trade_sync existing4 patch4).exit_price = none
    ∧ (update_trade_sync existing4 patch4).profit_loss = some 20 := by
  refine ⟨?_, ?_, ?_⟩ <;>
    norm_num [update_trade_sync, existing4, patch4, calculate_profit_loss]

/-- C9: when the ownership lookup finds no chat for this caller (the chat
does not exist or belongs to another user), ai_chat surfaces the 404 and
returns the store unchanged: no user message, no assistant message and no
trade is written. -/
theorem C9_not_found_zero_writes (o : ChatOracle) (s : Store)
    (user_id chat_id message : String)
    (h : chat_lookup s chat_id user_id = none) :
    ai_chat o s user_id chat_id message =
      (Except.error (ChatError.notFound notFoundDetail), s) := by
  simp [ai_chat, h]

/-- Oracle for runs that never reach the model. -/
def oracle9 : ChatOracle :=
  { user_msg_insert_ok := true, db_read_ok := true, read_sees_user_msg := true,
    extraction_output := ModelExtractionOutput.nullLiteral,
    chat_model := fun _ _ => Except.ok "hi",
    ai_msg_insert_ok := true, trade_insert_ok := true, now := 1 }

/-- Witness for C9: bob requests the chat owned by alice and gets the 404
with the store unchanged. -/
theorem C9_witness :
    ai_chat oracle9 store1 "bob" "c1" "hello" =
      (Except.error (ChatError.notFound notFoundDetail), store1) :=
  C9_not_found_zero_writes oracle9 store1 "bob" "c1" "hello" (by rfl)

/-- Extraction model output with a ticker and entry price but neither
quantity nor entry date. -/
def raw8 : RawTradeJson := { ticker := some "AAPL", entry_price := some 150 }

/-- C8 counterexample: when the model output contains a ticker but omits
quantity and entry date, the adapter returns none (pydantic validation of
the required fields fails and the catch-all swallows it) — it does not
return a draft with quantity 1 and entry date defaulted, as the claim
states; the defaults live only in the extraction prompt sent to the
model. -/
theorem C8_counterexample :
    extract_trade_from_text (ModelExtractionOutput.jsonObj raw8) = none := by
  decide

/-- C8 amended: the adapter applies no defaults itself; whenever the
parsed model output omits quantity or entry date, extraction returns
none. -/
theorem C8_no_adapter_defaults (o : RawTradeJson)
    (h : o.quantity = none ∨ o.entry_date = none) :
    extract_trade_from_text (ModelExtractionOutput.jsonObj o) = none := by
  rcases o with ⟨tk, ed, ep, q, xd, xp, nt⟩
  rcases h with h | h
  · subst h
    cases tk <;> cases ed <;> cases ep <;>
      simp [extract_trade_from_text, validate_TradeCreate]
  · subst h
    cases tk <;> cases ep <;> cases q <;>
      simp [extract_trade_from_text, validate_TradeCreate]

/-- Extraction model output omitting only the quantity. -/
def raw8b : RawTradeJson :=
  { ticker := some "TSLA", entry_date := some 20250105, entry_price := some 200 }

/-- Witness for C8 amended at raw8b. -/
theorem C8_amended_witness :
    extract_trade_from_text (ModelExtractionOutput.jsonObj raw8b) = none :=
  C8_no_adapter_defaults raw8b (Or.inl rfl)

/-- C10: when the title generator yields none (failure or empty result,
never an exception), the endpoint surfaces the 500 with detail "AI failed
to generate title" and leaves the store — hence the chat title —
unchanged. -/
theorem C10_title_none_no_update (title_model : Option String) (s : Store)
    (user_id chat_id : String) (c : ChatRow)
    (hchat : chat_lookup s chat_id user_id = some c)
    (hmsgs : (first_messages_query s chat_id).isEmpty = false)
    (hnone : title_model = none) :
    generate_title_for_chat title_model (first_messages_query s chat_id) = none
    ∧ generate_title title_model s user_id chat_id =
        (Except.error (TitleError.internal "AI failed to generate title"), s) := by
  constructor
  · simp [generate_title_for_chat, hnone]
  · simp [generate_title, hchat, hmsgs, hnone, generate_title_for_chat]

/-- A user message of alice in chat c1. -/
def msgA : MessageRow := ⟨"c1", "alice", "hello", "user", 1⟩

/-- Store with the chat of alice and one message in it. -/
def store10 : Store := ⟨[chatA], [msgA], []⟩

/-- Witness for C10: a failing title generation on a chat with one
message surfaces the 500 and leaves the store unchanged. -/
theorem C10_witness :
    generate_title none store10 "alice" "c1" =
      (Except.error (TitleError.internal "AI failed to generate title"), store10) :=
  (C10_title_none_no_update none store10 "alice" "c1" chatA (by decide) (by decide) rfl).2

/-- Decidable equality for Except results. -/
instance exceptDecEq {e a : Type} [DecidableEq e] [DecidableEq a] :
    DecidableEq (Except e a) := fun x y =>
  match x, y with
  | Except.ok v, Except.ok w =>
    if h : v = w then isTrue (by rw [h]) else isFalse (by intro he; cases he; exact h rfl)
  | Except.error v, Except.error w =>
    if h : v = w then isTrue (by rw [h]) else isFalse (by intro he; cases he; exact h rfl)
  | Except.ok _, Except.error _ => isFalse (by intro he; cases he)
  | Except.error _, Except.ok _ => isFalse (by intro he; cases he)

/-- The optional head of a list is a member of it. -/
theorem head?_mem {α : Type} {l : List α} {a : α} (h : l.head? = some a) : a ∈ l := by
  cases l with
  | nil => simp at h
  | cons b bs =>
    simp at h
    subst h
    exact List.mem_cons_self _ _

/-- A message sitting in chat c1 but owned by mallory, not by the chat
owner alice (the store is external; nothing in the read path rules such a
row out, because the message read filters on chat_id only). -/
def msgIntruder : MessageRow := ⟨"c1", "mallory", "injected", "user", 2⟩

/-- Store for the C2 counterexample. -/
def store2 : Store := ⟨[chatA], [msgIntruder], []⟩

/-- C2 counterexample: the chat-message history fetched as context for
reply generation returns the mallory-owned row to caller alice — the read
is scoped by chat id, not by the calling user id, so it is not true that
every fetched record is owned by the caller. -/
theorem C2_counterexample :
    ((get_chat_and_trades_sync store2 "c1" "alice").fst.map (fun m => m.user_id))
      = ["mallory"]
    ∧ "mallory" ≠ "alice" := by
  decide

/-- C2 amended: the Chat ownership lookup and the Trade history read are
filtered by the calling user id, and the Message history read is filtered
by chat id only; under the reachable-store invariant that every message
of the chat carries the chat owner's user id, the fetched history
contains only caller-owned records. -/
theorem C2_owner_scoping_amended (s : Store) (chat_id user_id : String)
    (hmsg : ∀ m ∈ s.messages, m.chat_id = chat_id → m.user_id = user_id) :
    (∀ c, chat_lookup s chat_id user_id = some c → c.user_id = user_id)
    ∧ (∀ t ∈ trades_query s user_id, t.user_id = user_id)
    ∧ (∀ m ∈ messages_query s chat_id, m.user_id = user_id) := by
  refine ⟨?_, ?_, ?_⟩
  · intro c hc
    have hfmem : c ∈ s.chats.filter (fun c => c.id == chat_id && c.user_id == user_id) :=
      head?_mem hc
    have hpred := (List.mem_filter.mp hfmem).2
    simp only [Bool.and_eq_true, beq_iff_eq] at hpred
    exact hpred.2
  · intro t ht
    have h1 : t ∈ sortBy (fun a b => b.entry_date ≤ a.entry_date)
        (s.trades.filter (fun t => t.user_id == user_id)) :=
      List.take_subset _ _ ht
    have h2 := mem_sortBy.mp h1
    have hpred := (List.mem_filter.mp h2).2
    simpa [beq_iff_eq] using hpred
  · intro m hm
    have h2 := mem_sortBy.mp hm
    have hmem := (List.mem_filter.mp h2).1
    have hpred := (List.mem_filter.mp h2).2
    exact hmsg m hmem (by simpa [beq_iff_eq] using hpred)

/-- An open trade of alice. -/
def tradeA : TradeRow :=
  ⟨"alice", "AAPL", 20250101, 150, 10, none, none, none, none⟩

/-- Store whose only message is owned by the chat owner. -/
def store2w : Store := ⟨[chatA], [msgA], [tradeA]⟩

/-- Witness for C2 amended: on a store satisfying the invariant, the
fetched trade is owned by the caller. -/
theorem C2_amended_witness : tradeA.user_id = "alice" :=
  (C2_owner_scoping_amended store2w "c1" "alice" (by decide)).2.1 tradeA (by decide)

/-- C7: the conversation adapter is a total function that returns the
fixed fallback sentence whenever the model call errors (it never raises),
and in that case ai_chat still returns the fallback text to the caller
and persists the identical text as the assistant message. -/
theorem C7_adapter_fallback (o : ChatOracle) (s : Store)
    (user_id chat_id message : String) (c : ChatRow)
    (hfail : ∀ gh m, o.chat_model gh m = Except.error ())
    (hchat : chat_lookup s chat_id user_id = some c)
    (h1 : o.user_msg_insert_ok = true) (h2 : o.db_read_ok = true)
    (h3 : o.ai_msg_insert_ok = true)
    (h4 : (extract_trade_from_text o.extraction_output).isNone = true
          ∨ o.trade_insert_ok = true) :
    (∀ um ch th, generate_chat_response o.chat_model um ch th = fallback_response)
    ∧ (ai_chat o s user_id chat_id message).fst =
        Except.ok { message := fallback_response,
                    trade_extracted := extract_trade_from_text o.extraction_output }
    ∧ mk_ai_msg o chat_id user_id fallback_response ∈
        (ai_chat o s user_id chat_id message).snd.messages := by
  have hgen : ∀ um ch th, generate_chat_response o.chat_model um ch th = fallback_response := by
    intro um ch th
    simp [generate_chat_response, hfail]
  have hreply : ai_chat_reply o s user_id chat_id message = fallback_response := by
    simp [ai_chat_reply, hgen]
  refine ⟨hgen, ?_, ?_⟩
  · rcases h4 with h4 | h4 <;>
      simp [ai_chat, hchat, h1, h2, h3, h4, hreply]
  · rcases h4 with h4 | h4 <;>
      simp [ai_chat, hchat, h1, h2, h3, h4, hreply]

/-- Oracle whose conversation model call always errors. -/
def oracle7 : ChatOracle :=
  { user_msg_insert_ok := true, db_read_ok := true, read_sees_user_msg := true,
    extraction_output := ModelExtractionOutput.nullLiteral,
    chat_model := fun _ _ => Except.error (),
    ai_msg_insert_ok := true, trade_insert_ok := true, now := 1 }

/-- Witness for C7: with the failing model, ai_chat returns the fallback
text. -/
theorem C7_witness :
    (ai_chat oracle7 store1 "alice" "c1" "hello").fst =
      Except.ok { message := fallback_response, trade_extracted := none } := by
  have h := C7_adapter_fallback oracle7 store1 "alice" "c1" "hello" chatA
    (fun _ _ => rfl) (by decide) rfl rfl rfl (Or.inl rfl)
  exact h.2.1

/-- Extraction model output for an open MSFT trade. -/
def raw3 : RawTradeJson :=
  { ticker := some "MSFT", entry_date := some 20250103, entry_price := some 100,
    quantity := some 5 }

/-- The draft raw3 validates to. -/
def draft3 : TradeCreate :=
  { ticker := "MSFT", entry_date := 20250103, entry_price := 100, quantity := 5 }

/-- Oracle for a run where only the trade insert fails. -/
def oracle3 : ChatOracle :=
  { user_msg_insert_ok := true, db_read_ok := true, read_sees_user_msg := true,
    extraction_output := ModelExtractionOutput.jsonObj raw3,
    chat_model := fun _ _ => Except.ok "Logged your MSFT trade.",
    ai_msg_insert_ok := true, trade_insert_ok := false, now := 1 }

/-- C3 counterexample: extraction succeeded, the store stayed reachable
(the assistant-message write succeeds), only the trade insert fails — yet
the request fails wholesale with the generic internal 500 of the outer
handler: the computed reply is not returned and no distinct trade-write
report reaches the caller. -/
theorem C3_counterexample :
    (ai_chat oracle3 store1 "alice" "c1" "bought 5 MSFT at 100").fst =
      Except.error (ChatError.internal criticalErrorDetail) := by
  decide

/-- C3 amended: when the trade insert fails after a successful extraction
while the assistant-message write succeeds, the assistant message carrying
the computed reply is still persisted (the concurrently launched write
completes) and no trade row is written, but the whole request fails with
the generic internal error instead of returning the reply with a distinct
trade-write report. -/
theorem C3_trade_insert_failure_amended (o : ChatOracle) (s : Store)
    (user_id chat_id message : String) (c : ChatRow) (t : TradeCreate)
    (hchat : chat_lookup s chat_id user_id = some c)
    (h1 : o.user_msg_insert_ok = true) (h2 : o.db_read_ok = true)
    (hex : extract_trade_from_text o.extraction_output = some t)
    (h3 : o.ai_msg_insert_ok = true) (h4 : o.trade_insert_ok = false) :
    (ai_chat o s user_id chat_id message).fst =
      Except.error (ChatError.internal criticalErrorDetail)
    ∧ mk_ai_msg o chat_id user_id (ai_chat_reply o s user_id chat_id message) ∈
        (ai_chat o s user_id chat_id message).snd.messages
    ∧ (ai_chat o s user_id chat_id message).snd.trades = s.trades := by
  refine ⟨?_, ?_, ?_⟩ <;>
    simp [ai_chat, hchat, h1, h2, hex, h3, h4, store_after_user_insert]

/-- Witness for C3 amended: the assistant message holding the reply is in
the final store even though the request errored. -/
theorem C3_amended_witness :
    mk_ai_msg oracle3 "c1" "alice"
        (ai_chat_reply oracle3 store1 "alice" "c1" "bought 5 MSFT at 100") ∈
      (ai_chat oracle3 store1 "alice" "c1" "bought 5 MSFT at 100").snd.messages :=
  (C3_trade_insert_failure_amended oracle3 store1 "alice" "c1" "bought 5 MSFT at 100"
    chatA draft3 (by decide) rfl rfl (by decide) rfl rfl).2.1

/-- Oracle for a fully successful run extracting raw3; the model reply is
the three-character text "ok.". -/
def oracle6 : ChatOracle :=
  { user_msg_insert_ok := true, db_read_ok := true, read_sees_user_msg := true,
    extraction_output := ModelExtractionOutput.jsonObj raw3,
    chat_model := fun _ _ => Except.ok "ok.",
    ai_msg_insert_ok := true, trade_insert_ok := true, now := 1 }

/-- C6 counterexample: a trade was extracted, yet the persisted assistant
message is exactly the raw model reply "ok." — the ticker MSFT of the
extracted trade occurs nowhere in it, so no structured confirmation block
(which names the ticker) was prepended. The persisted and returned texts
are identical, but the enrichment the claim describes does not happen. -/
theorem C6_counterexample :
    (ai_chat oracle6 store1 "alice" "c1" "bought 5 MSFT at 100").fst =
      Except.ok { message := "ok.", trade_extracted := some draft3 }
    ∧ ((ai_chat oracle6 store1 "alice" "c1" "bought 5 MSFT at 100").snd.messages.filter
        (fun m => m.role == "assistant")).map (fun m => m.content) = ["ok."]
    ∧ ¬ "MSFT".data <:+: "ok.".data := by
  refine ⟨by decide, by decide, by decide⟩

/-- C6 amended: whenever a trade was extracted and all writes succeed,
the text returned to the caller is exactly the reply computed by the
conversation adapter, with nothing prepended, and the persisted assistant
message carries the identical text. -/
theorem C6_persisted_equals_returned (o : ChatOracle) (s : Store)
    (user_id chat_id message : String) (c : ChatRow) (t : TradeCreate)
    (hchat : chat_lookup s chat_id user_id = some c)
    (h1 : o.user_msg_insert_ok = true) (h2 : o.db_read_ok = true)
    (hex : extract_trade_from_text o.extraction_output = some t)
    (h3 : o.ai_msg_insert_ok = true) (h4 : o.trade_insert_ok = true) :
    (ai_chat o s user_id chat_id message).fst =
      Except.ok { message := ai_chat_reply o s user_id chat_id message,
                  trade_extracted := some t }
    ∧ mk_ai_msg o chat_id user_id (ai_chat_reply o s user_id chat_id message) ∈
        (ai_chat o s user_id chat_id message).snd.messages := by
  constructor <;> simp [ai_chat, hchat, h1, h2, hex, h3, h4]

/-- Witness for C6 amended at the oracle6 run. -/
theorem C6_amended_witness :
    (ai_chat oracle6 store1 "alice" "c1" "bought 5 MSFT at 100").fst =
      Except.ok { message := ai_chat_reply oracle6 store1 "alice" "c1" "bought 5 MSFT at 100",
                  trade_extracted := some draft3 } :=
  (C6_persisted_equals_returned oracle6 store1 "alice" "c1" "bought 5 MSFT at 100"
    chatA draft3 (by decide) rfl rfl (by decide) rfl rfl).1

/-- round(0, 2) is 0. -/
theorem round2_zero : round2 0 = 0 := by
  simp [round2, roundHalfEven]

/-- The win bucket of get_analytics counts exactly the trades the spec
formula counts: those with profit_loss present and positive. -/
theorem win_bucket_length_spec (trades : List TradeRow) :
    (win_bucket trades).length = spec_win_count trades := by
  unfold win_bucket closed_of spec_win_count
  rw [List.filter_filter]
  congr 1
  apply List.filter_congr
  intro t _
  cases hpl : t.profit_loss with
  | none => simp [plValue, hpl]
  | some p => simp [plValue, hpl]

/-- The win-rate output of get_analytics in closed form: the rounded
ratio of the bucket lengths, 0 for a zero denominator. -/
theorem get_analytics_win_rate (trades : List TradeRow) :
    (get_analytics trades).win_rate =
      round2 (if (closed_of trades).length = 0 then 0
              else ((win_bucket trades).length : Rat) / ((closed_of trades).length : Rat)
                * 100) := by
  cases trades with
  | nil => simp [get_analytics, closed_of, win_bucket, round2_zero]
  | cons t ts =>
    simp only [get_analytics, List.isEmpty_cons, Bool.false_eq_true, if_false]
    rcases Nat.eq_zero_or_pos (closed_of (t :: ts)).length with h | h
    · simp [h]
    · have h0 : (closed_of (t :: ts)).length ≠ 0 := Nat.pos_iff_ne_zero.mp h
      simp [h, h0]

/-- A winning closed trade (P&L 6). -/
def t5a : TradeRow := ⟨"alice", "AAA", 1, 1, 1, some 2, some 7, none, some 6⟩

/-- A losing closed trade (P&L -3). -/
def t5b : TradeRow := ⟨"alice", "BBB", 2, 4, 1, some 3, some 1, none, some (-3)⟩

/-- A break-even closed trade (P&L exactly 0). -/
def t5c : TradeRow := ⟨"alice", "CCC", 3, 5, 1, some 4, some 5, none, some 0⟩

/-- Three closed trades: one win, one loss, one break-even. -/
def trades3 : List TradeRow := [t5a, t5b, t5c]

/-- C5 counterexample: with one win among three closed trades the claim
formula gives 100/3, but the summary field is rounded to 2 decimal places
(33.33), so the summary win rate does not equal
100 * count(profit_loss > 0) / count(profit_loss present) exactly. -/
theorem C5_counterexample :
    (get_analytics trades3).win_rate ≠
      100 * (spec_win_count trades3 : Rat) / (spec_closed_count trades3 : Rat) := by
  have hc : (closed_of trades3).length = 3 := by decide
  have hw : (win_bucket trades3).length = 1 := by decide
  have hs1 : spec_win_count trades3 = 1 := by decide
  have hs2 : spec_closed_count trades3 = 3 := by decide
  have hfloor : ⌊(10000 / 3 : Rat)⌋ = 3333 := by
    rw [Int.floor_eq_iff]
    norm_num
  rw [get_analytics_win_rate, hc, hw, hs1, hs2]
  have harg : (if (3 : Nat) = 0 then (0 : Rat)
      else ((1 : Nat) : Rat) / ((3 : Nat) : Rat) * 100) = 10000 / 3 / 100 := by
    norm_num
  rw [harg]
  simp only [round2, roundHalfEven]
  norm_num [hfloor]

/-- C5 amended: the summary win rate equals the claim formula passed
through the 2-decimal boundary rounding (and is 0 when no trade has a
P&L), while totalTrades and totalProfitLoss range over all closed trades
including break-even ones, and a trade with profit_loss exactly 0 is
closed but in neither the win nor the loss bucket. -/
theorem C5_analytics_amended (trades : List TradeRow) :
    (get_analytics trades).win_rate =
      round2 (if spec_closed_count trades = 0 then 0
              else 100 * (spec_win_count trades : Rat) / (spec_closed_count trades : Rat))
    ∧ (spec_closed_count trades = 0 → (get_analytics trades).win_rate = 0)
    ∧ (get_analytics trades).total_trades = spec_closed_count trades
    ∧ (get_analytics trades).total_profit_loss = round2 ((closed_of trades).map plValue).sum
    ∧ (∀ t ∈ trades, t.profit_loss = some 0 →
        t ∈ closed_of trades ∧ t ∉ win_bucket trades ∧ t ∉ loss_bucket trades) := by
  have hclosed : (closed_of trades).length = spec_closed_count trades := rfl
  have hwin := win_bucket_length_spec trades
  have hrate : (get_analytics trades).win_rate =
      round2 (if spec_closed_count trades = 0 then 0
              else 100 * (spec_win_count trades : Rat) / (spec_closed_count trades : Rat)) := by
    rw [get_analytics_win_rate, hwin, hclosed]
    congr 1
    rcases Nat.eq_zero_or_pos (spec_closed_count trades) with h | h
    · simp [h]
    · have h0 : spec_closed_count trades ≠ 0 := Nat.pos_iff_ne_zero.mp h
      simp only [h0, if_false]
      rw [div_mul_eq_mul_div, mul_comm]
  refine ⟨hrate, ?_, ?_, ?_, ?_⟩
  · intro h0
    rw [hrate, h0]
    simp [round2_zero]
  · cases trades with
    | nil => rfl
    | cons t ts => simp [get_analytics, spec_closed_count, closed_of]
  · cases trades with
    | nil => simp [get_analytics, closed_of, round2_zero]
    | cons t ts => simp [get_analytics]
  · intro t ht hpl
    refine ⟨?_, ?_, ?_⟩
    · simp [closed_of, List.mem_filter, ht, hpl]
    · simp [win_bucket, closed_of, List.mem_filter, plValue, hpl]
    · simp [loss_bucket, closed_of, List.mem_filter, plValue, hpl]

/-- Witness for C5 amended: the break-even trade of trades3 is counted as
closed but is in neither bucket. -/
theorem C5_amended_witness :
    t5c ∈ closed_of trades3 ∧ t5c ∉ win_bucket trades3 ∧ t5c ∉ loss_bucket trades3 :=
  (C5_analytics_amended trades3).2.2.2.2 t5c (by decide) (by decide)
